import Mathlib

/-
  Shallow embedding of the lending contract in
  src/contracts/nft-enumerable/src/contract.rs.

  The contract keeps all loan data in single global instance-storage slots
  (symbols "borrower", "amount", "rate", "duration", "created", "status",
  "repaid", "collat", "next_id"), plus the NFT ownership map maintained by
  the enumerable token library and the pausable flag.  Each storage slot is
  modelled as an Option, with the Rust unwrap_or defaults applied at the
  read sites, exactly as in the source.  Addresses and token ids are Nat;
  i128 amounts are Int (no arithmetic in the contract can overflow i128 for
  the inputs exercised here, and the source performs no wrapping).
  A panic_with_error aborts the whole transaction with no state change, so
  every operation returns Except Err: an error result carries no state,
  which is the all-or-nothing semantics of the host.
-/

namespace Lending

inductive Err where
  /-- contract_error 1: the instance owner key is absent. -/
  | MissingAdmin
  /-- contract_error 2: caller is not the contract owner. -/
  | NotAuthorized
  /-- contract_error 3: borrower does not own the collateral NFT. -/
  | NotCollateralOwner
  /-- contract_error 4: the NFT is already used as collateral. -/
  | CollateralAlreadyLocked
  /-- contract_error 5 and 8: the loan (its borrower slot) is absent. -/
  | LoanNotFound
  /-- contract_error 6: repay caller is not the borrower. -/
  | NotBorrower
  /-- contract_error 7: the loan status is not Active. -/
  | LoanNotActive
  /-- NFT library panic: owner_of on a token that was never minted. -/
  | NonExistentToken
  /-- NFT library panic: minting a token id that already exists. -/
  | TokenAlreadyMinted
  /-- Pausable guard: the operation is blocked while paused. -/
  | ContractPaused
  /-- Liquidation attempted before the loan term has expired. -/
  | LoanNotExpired
  /-- Asset transfer where the from-account is not the current owner. -/
  | TransferNotOwner
deriving DecidableEq, Repr

/-- The instance storage of the contract plus the token-library state.
Loan statuses are encoded as in the source: 0 = Active, 1 = Repaid
(and 2 = Liquidated for the spec-modelled liquidation). -/
structure ContractState where
  owner : Option Nat
  paused : Bool
  nftOwner : List (Nat × Nat)
  borrower : Option Nat
  amount : Option Int
  rate : Option Nat
  duration : Option Nat
  created : Option Nat
  status : Option Nat
  repaid : Option Int
  collat : Option Nat
  next_id : Option Nat
deriving DecidableEq, Repr

/-- State produced by the constructor: metadata plus the owner slot. -/
def initState (owner : Nat) : ContractState :=
  { owner := some owner, paused := false, nftOwner := []
    borrower := none, amount := none, rate := none, duration := none
    created := none, status := none, repaid := none, collat := none
    next_id := none }

/-- Enumerable::owner_of - the current owner of a token, if minted. -/
def owner_of (s : ContractState) (token_id : Nat) : Option Nat :=
  (s.nftOwner.find? fun p => p.1 == token_id).map Prod.snd

/-- mint: when_not_paused, owner-only, non_sequential_mint. -/
def mint (s : ContractState) (to_acct token_id caller : Nat) :
    Except Err ContractState :=
  if s.paused then .error .ContractPaused
  else
    match s.owner with
    | none => .error .MissingAdmin
    | some o =>
      if caller ≠ o then .error .NotAuthorized
      else if (owner_of s token_id).isSome then .error .TokenAlreadyMinted
      else .ok { s with nftOwner := (token_id, to_acct) :: s.nftOwner }

/-- pause: owner-only, sets the pausable flag. -/
def pause (s : ContractState) (caller : Nat) : Except Err ContractState :=
  match s.owner with
  | none => .error .MissingAdmin
  | some o =>
    if caller ≠ o then .error .NotAuthorized
    else .ok { s with paused := true }

/-- is_collateral: the stored collat slot (default 0) equals the token id. -/
def is_collateral (s : ContractState) (token_id : Nat) : Bool :=
  s.collat.getD 0 == token_id

/-- get_next_loan_id: the next_id slot with default 1. -/
def get_next_loan_id (s : ContractState) : Nat :=
  s.next_id.getD 1

/-- create_loan: checks NFT ownership and the collateral slot, then writes
every loan field into the single global slots.  The source performs no
pause check and no validation of amount or duration_days; the caller
argument is unused.  now is the ledger timestamp read inside the call. -/
def create_loan (s : ContractState) (borrower token_id : Nat) (amount : Int)
    (interest_rate duration_days _caller now : Nat) :
    Except Err (Nat × ContractState) :=
  match owner_of s token_id with
  | none => .error .NonExistentToken
  | some o =>
    if o ≠ borrower then .error .NotCollateralOwner
    else if is_collateral s token_id then .error .CollateralAlreadyLocked
    else
      let loan_id := get_next_loan_id s
      .ok (loan_id,
        { s with
          borrower := some borrower
          amount := some amount
          rate := some interest_rate
          duration := some duration_days
          created := some now
          status := some 0
          repaid := some 0
          collat := some token_id
          next_id := some (loan_id + 1) })

/-- repay_loan: borrower-only while Active; adds amount to the repaid slot
with no clamping and no positivity check; on new_repaid >= amount slot it
sets status = 1 (Repaid) and clears the collat slot to 0.  The loan_id
argument is unused. -/
def repay_loan (s : ContractState) ( _loan_id : Nat) (amount : Int)
    (caller : Nat) : Except Err ContractState :=
  match s.borrower with
  | none => .error .LoanNotFound
  | some b =>
    if b ≠ caller then .error .NotBorrower
    else if s.status.getD 1 ≠ 0 then .error .LoanNotActive
    else
      let repaid := s.repaid.getD 0
      let new_repaid := repaid + amount
      let s1 := { s with repaid := some new_repaid }
      let loan_amount := s.amount.getD 0
      if new_repaid ≥ loan_amount then
        .ok { s1 with status := some 1, collat := some 0 }
      else .ok s1

/-- get_loan_info: reads every slot with its unwrap_or default; fails only
when the borrower slot is absent.  The loan_id argument is unused. -/
def get_loan_info (s : ContractState) ( _loan_id : Nat) :
    Except Err (Nat × Int × Nat × Nat × Nat × Nat × Int) :=
  match s.borrower with
  | none => .error .LoanNotFound
  | some b =>
    .ok (b, s.amount.getD 0, s.rate.getD 0, s.duration.getD 0,
      s.created.getD 0, s.status.getD 1, s.repaid.getD 0)

/-- Modelled from the spec: calculate_interest is absent from
src/contract.rs (only the tests call it).  Per the spec it is a pure
function: elapsed_days = floor((at_time - created_at) / 86400) clamped to
[0, duration_days] (Nat subtraction realises the clamp at 0), and
interest = principal * interest_rate_bps * elapsed_days
/ (10000 * duration_days) with integer floor division. -/
def calculate_interest (principal : Int) (interest_rate_bps duration_days
    created_at at_time : Nat) : Int :=
  let elapsed_days : Nat := min ((at_time - created_at) / 86400) duration_days
  principal * (interest_rate_bps : Int) * (elapsed_days : Int)
    / (10000 * (duration_days : Int))

/-- Modelled from the spec: liquidate_loan is absent from src/contract.rs
(only the tests call it).  Per the spec: requires not-paused, an existing
loan (LoanNotFound), status Active (LoanNotActive), and
now >= created_at + duration_days * 86400 (else LoanNotExpired); then sets
status = Liquidated (encoded 2), releases the collateral lock, and has the
asset registry transfer the collateral from the borrower to the caller
(the registry transfer fails if the borrower is not the current owner). -/
def liquidate_loan (s : ContractState) ( _loan_id caller now : Nat) :
    Except Err ContractState :=
  if s.paused then .error .ContractPaused
  else
    match s.borrower with
    | none => .error .LoanNotFound
    | some b =>
      if s.status.getD 1 ≠ 0 then .error .LoanNotActive
      else if now < s.created.getD 0 + s.duration.getD 0 * 86400 then
        .error .LoanNotExpired
      else
        let token_id := s.collat.getD 0
        if owner_of s token_id ≠ some b then .error .TransferNotOwner
        else
          .ok { s with
            status := some 2
            collat := some 0
            nftOwner := (token_id, caller) :: s.nftOwner }

/-
  Concrete states used by the counterexamples and witnesses.  Each one is
  reached from initState 0 by the operation calls proved in the theorems
  below (admin account 0, borrower account 10).
-/

/-- After mint of token 1 to account 10. -/
def stMint1 : ContractState :=
  { initState 0 with nftOwner := [(1, 10)] }

/-- After a further mint of token 2 to account 10. -/
def stMint2 : ContractState :=
  { stMint1 with nftOwner := [(2, 10), (1, 10)] }

/-- After create_loan on token 1 (principal 1000, 500 bps, 30 days, t=100). -/
def stLoan1 : ContractState :=
  { stMint2 with
    borrower := some 10
    amount := some 1000
    rate := some 500
    duration := some 30
    created := some 100
    status := some 0
    repaid := some 0
    collat := some 1
    next_id := some 2 }

/-- After a second create_loan on token 2 (principal 2000, 600 bps, 60 days). -/
def stLoan2 : ContractState :=
  { stLoan1 with
    amount := some 2000
    rate := some 600
    duration := some 60
    collat := some 2
    next_id := some 3 }

/-- After a third create_loan, again on token 1. -/
def stLoan3 : ContractState :=
  { stLoan2 with
    amount := some 500
    rate := some 500
    duration := some 30
    collat := some 1
    next_id := some 4 }

/-- A standalone Active loan on token 5 owned by borrower 10. -/
def cActive : ContractState :=
  { owner := some 0, paused := false, nftOwner := [(5, 10)]
    borrower := some 10, amount := some 1000, rate := some 500
    duration := some 30, created := some 100, status := some 0
    repaid := some 0, collat := some 5, next_id := some 2 }

/-- cActive after repaying exactly the principal. -/
def cRepaidFull : ContractState :=
  { cActive with repaid := some 1000, status := some 1, collat := some 0 }

/-- After mint of token 0 to account 10 on top of stMint1. -/
def zMint2 : ContractState :=
  { stMint1 with nftOwner := [(0, 10), (1, 10)] }

/-- After create_loan on token 1 at t=50. -/
def zLoan1 : ContractState :=
  { zMint2 with
    borrower := some 10
    amount := some 1000
    rate := some 500
    duration := some 30
    created := some 50
    status := some 0
    repaid := some 0
    collat := some 1
    next_id := some 2 }

/-- After a second create_loan on token 0 (principal 800). -/
def zLoan2 : ContractState :=
  { zLoan1 with amount := some 800, collat := some 0, next_id := some 3 }

/-- zLoan2 after full repayment of its 800 principal. -/
def zRepaid : ContractState :=
  { zLoan2 with repaid := some 800, status := some 1, collat := some 0 }

/-- stLoan1 after full repayment of its 1000 principal. -/
def tRepaid : ContractState :=
  { stLoan1 with repaid := some 1000, status := some 1, collat := some 0 }

/-- tRepaid after a new create_loan on token 2 at t=200. -/
def tLoan2 : ContractState :=
  { tRepaid with
    amount := some 2000
    rate := some 600
    duration := some 60
    created := some 200
    status := some 0
    repaid := some 0
    collat := some 2
    next_id := some 3 }

/-- stMint1 with the pausable flag set by the admin. -/
def pPaused : ContractState :=
  { stMint1 with paused := true }

/-- The state create_loan writes on success: every loan slot overwritten,
the collateral slot set to the token, and the id counter bumped. -/
def loanWritten (s : ContractState) (b tok : Nat) (amt : Int)
    (r d now : Nat) : ContractState :=
  { s with
    borrower := some b
    amount := some amt
    rate := some r
    duration := some d
    created := some now
    status := some 0
    repaid := some 0
    collat := some tok
    next_id := some (get_next_loan_id s + 1) }

/-- The state liquidate_loan writes on success: status Liquidated, the
collateral slot released, and the NFT reassigned to the caller. -/
def liquidated (s : ContractState) (tok caller : Nat) : ContractState :=
  { s with
    status := some 2
    collat := some 0
    nftOwner := (tok, caller) :: s.nftOwner }

/-- C4: calculate_interest is the pure clamped simple-interest formula:
interest = principal * interest_rate_bps * elapsed_days
/ (10000 * duration_days) with elapsed_days = (at_time - created_at) / 86400
clamped to [0, duration_days]; the spec examples evaluate to 100 (full
term), 0 (no time elapsed), and 100 again far past expiry (the clamp stops
accrual at term end). -/
theorem calculate_interest_formula :
    calculate_interest 1000 1000 365 0 (365 * 86400) = 100 ∧
    calculate_interest 1000 1000 365 0 0 = 0 ∧
    calculate_interest 1000 1000 365 0 (1000 * 86400) = 100 ∧
    (∀ (p : Int) (r d ca t : Nat),
      calculate_interest p r d ca t
        = p * (r : Int) * ((min ((t - ca) / 86400) d : Nat) : Int)
            / (10000 * (d : Int))) :=
  ⟨by decide, by decide, by decide, fun p r d ca t => rfl⟩

/-- C9: get_loan_info returns the same record for every pair of loan_id
arguments, and after any successful create_loan every query returns the
fields of that newest loan, so an older loan is no longer retrievable
under its own id. -/
theorem get_loan_info_ignores_loan_id :
    (∀ (s : ContractState) (a b2 : Nat), get_loan_info s a = get_loan_info s b2) ∧
    (∀ (s s2 : ContractState) (b tok : Nat) (amt : Int) (r d caller now id : Nat),
      create_loan s b tok amt r d caller now = .ok (id, s2) →
      ∀ q : Nat, get_loan_info s2 q = .ok (b, amt, r, d, now, 0, 0)) := by
  constructor
  · intro s a b2
    rfl
  · intro s s2 b tok amt r d caller now id h q
    unfold create_loan at h
    split at h
    · exact absurd h (by simp)
    · split at h
      · exact absurd h (by simp)
      · split at h
        · exact absurd h (by simp)
        · simp only [Except.ok.injEq, Prod.mk.injEq] at h
          obtain ⟨-, h2⟩ := h
          subst h2
          rfl

/-- C9 witness: instantiated on the concrete creation of stLoan1; querying
an arbitrary id 99 returns the newest loan record. -/
theorem get_loan_info_ignores_loan_id_witness :
    get_loan_info stLoan1 99 = .ok (10, 1000, 500, 30, 100, 0, 0) :=
  get_loan_info_ignores_loan_id.2 stMint2 stLoan1 10 1 1000 500 30 10 100 1 rfl 99

/-- C10: whenever the stored collateral slot is absent (the initial state)
or holds the sentinel 0 (the slot after a full repayment clears it),
is_collateral answers true exactly for token_id 0. -/
theorem is_collateral_zero_sentinel (s : ContractState) (t : Nat)
    (h : s.collat = none ∨ s.collat = some 0) :
    is_collateral s t = true ↔ t = 0 := by
  unfold is_collateral
  rcases h with h | h <;> rw [h] <;>
    simp only [Option.getD_none, Option.getD_some, beq_iff_eq] <;> omega

/-- C10 witness: in the constructor state the collat slot is absent and
token 0 is reported as collateral. -/
theorem is_collateral_zero_sentinel_witness :
    (initState 0).collat = none ∧ is_collateral (initState 0) 0 = true :=
  ⟨rfl, (is_collateral_zero_sentinel (initState 0) 0 (Or.inl rfl)).mpr rfl⟩

/-- C1 counterexample: the collateral lock lives in a single storage slot,
so it does not survive an intervening create_loan on another collateral.
Token 1 is locked by the first loan, which is never repaid or liquidated
anywhere in this trace; after a second loan on token 2, a third
create_loan on token 1 succeeds (returning loan id 3) instead of failing
with CollateralAlreadyLocked. -/
theorem create_loan_relock_after_intervening_create :
    mint (initState 0) 10 1 0 = .ok stMint1 ∧
    mint stMint1 10 2 0 = .ok stMint2 ∧
    create_loan stMint2 10 1 1000 500 30 10 100 = .ok (1, stLoan1) ∧
    is_collateral stLoan1 1 = true ∧ stLoan1.status = some 0 ∧
    stLoan1.repaid = some 0 ∧
    create_loan stLoan1 10 2 2000 600 60 10 100 = .ok (2, stLoan2) ∧
    is_collateral stLoan2 1 = false ∧
    create_loan stLoan2 10 1 500 500 30 10 100 = .ok (3, stLoan3) :=
  ⟨rfl, rfl, rfl, rfl, rfl, rfl, rfl, rfl, rfl⟩

/-- C1 amended: while the stored collateral slot still holds c, a second
create_loan on c whose borrower owns c fails with CollateralAlreadyLocked
regardless of the caller and of the other loan terms; the guarantee is
only slot-local and is lost as soon as another create_loan overwrites the
slot. -/
theorem create_loan_locked_collateral_fails (s : ContractState) (b c : Nat)
    (amt : Int) (r d caller now : Nat)
    (hown : owner_of s c = some b) (hlock : s.collat = some c) :
    create_loan s b c amt r d caller now = .error .CollateralAlreadyLocked := by
  unfold create_loan
  rw [hown]
  simp [is_collateral, hlock]

/-- C1 amended witness: right after the first loan locks token 1, a second
create_loan on token 1 fails with CollateralAlreadyLocked. -/
theorem create_loan_locked_collateral_fails_witness :
    owner_of stLoan1 1 = some 10 ∧ stLoan1.collat = some 1 ∧
    create_loan stLoan1 10 1 700 500 30 99 150
      = .error .CollateralAlreadyLocked :=
  ⟨rfl, rfl, create_loan_locked_collateral_fails stLoan1 10 1 700 500 30 99 150 rfl rfl⟩

/-- C2 counterexample: a final over-payment is not clamped to the
principal.  On an Active loan with principal 1000 and nothing repaid, a
repay_loan of 2000 succeeds and stores repaid_amount 2000, while
min(principal, previous_repaid + amount) = 1000. -/
theorem repay_loan_overpayment_not_clamped :
    repay_loan cActive 1 2000 10
      = .ok { cActive with repaid := some 2000, status := some 1, collat := some 0 } ∧
    ¬ ((2000 : Int) = min (cActive.amount.getD 0) (cActive.repaid.getD 0 + 2000)) :=
  ⟨rfl, by decide⟩

/-- C2 amended: every successful repay_loan stores exactly
previous_repaid + amount (no clamping to the principal), and the stored
repaid_amount is non-decreasing whenever the paid amount is non-negative
(the source also never validates amount > 0). -/
theorem repay_loan_adds_amount (s s2 : ContractState) (id : Nat) (amt : Int)
    (caller : Nat) (h : repay_loan s id amt caller = .ok s2) :
    s2.repaid = some (s.repaid.getD 0 + amt) ∧
    (0 ≤ amt → s.repaid.getD 0 ≤ s2.repaid.getD 0) := by
  unfold repay_loan at h
  split at h
  · exact absurd h (by simp)
  · split at h
    · exact absurd h (by simp)
    · split at h
      · exact absurd h (by simp)
      · simp only [] at h
        split at h <;>
        · simp only [Except.ok.injEq] at h
          subst h
          refine ⟨rfl, fun hpos => ?_⟩
          simp only [Option.getD_some]
          exact le_add_of_nonneg_right hpos

/-- C2 amended witness: a partial payment of 300 on cActive stores 300. -/
theorem repay_loan_adds_amount_witness :
    repay_loan cActive 1 300 10 = .ok { cActive with repaid := some 300 } ∧
    ({ cActive with repaid := some 300 } : ContractState).repaid
        = some (cActive.repaid.getD 0 + 300) ∧
    (0 ≤ (300 : Int) →
      cActive.repaid.getD 0 ≤ ({ cActive with repaid := some 300 } : ContractState).repaid.getD 0) :=
  ⟨rfl, (repay_loan_adds_amount cActive { cActive with repaid := some 300 } 1 300 10 rfl).1,
    (repay_loan_adds_amount cActive { cActive with repaid := some 300 } 1 300 10 rfl).2⟩

/-- C3 counterexample: for a loan whose collateral is token 0, full
repayment sets status Repaid but is_collateral(0) remains true, because
the release writes the sentinel value 0 into the collateral slot.  The
trace reaches such a loan from the constructor state: token 0 is minted,
a first loan locks token 1, then a loan on token 0 is created and fully
repaid. -/
theorem repay_full_token_zero_still_collateral :
    mint (initState 0) 10 1 0 = .ok stMint1 ∧
    mint stMint1 10 0 0 = .ok zMint2 ∧
    create_loan zMint2 10 1 1000 500 30 10 50 = .ok (1, zLoan1) ∧
    create_loan zLoan1 10 0 800 500 30 10 50 = .ok (2, zLoan2) ∧
    repay_loan zLoan2 2 800 10 = .ok zRepaid ∧
    zRepaid.status = some 1 ∧
    zLoan2.amount.getD 0 ≤ zRepaid.repaid.getD 0 ∧
    is_collateral zRepaid 0 = true :=
  ⟨rfl, rfl, rfl, rfl, rfl, rfl, by decide, rfl⟩

/-- C3 amended: a successful repay_loan whose cumulative payment reaches
the principal sets status Repaid and releases the collateral lock for
every token id other than the sentinel 0. -/
theorem repay_full_marks_repaid_releases (s s2 : ContractState) (id : Nat)
    (amt : Int) (caller c : Nat)
    (h : repay_loan s id amt caller = .ok s2)
    (hfull : s.amount.getD 0 ≤ s.repaid.getD 0 + amt)
    (hc : c ≠ 0) :
    s2.status = some 1 ∧ is_collateral s2 c = false := by
  unfold repay_loan at h
  split at h
  · exact absurd h (by simp)
  · split at h
    · exact absurd h (by simp)
    · split at h
      · exact absurd h (by simp)
      · simp only [] at h
        rw [if_pos (ge_iff_le.mpr hfull)] at h
        simp only [Except.ok.injEq] at h
        subst h
        refine ⟨rfl, ?_⟩
        unfold is_collateral
        simp only [Option.getD_some, beq_eq_false_iff_ne, ne_eq]
        omega

/-- C3 amended witness: cActive (token 5) fully repaid with 1000 becomes
Repaid and token 5 is no longer collateral. -/
theorem repay_full_marks_repaid_releases_witness :
    repay_loan cActive 1 1000 10 = .ok cRepaidFull ∧
    cActive.amount.getD 0 ≤ cActive.repaid.getD 0 + 1000 ∧
    cRepaidFull.status = some 1 ∧ is_collateral cRepaidFull 5 = false :=
  ⟨rfl, by decide,
    (repay_full_marks_repaid_releases cActive cRepaidFull 1 1000 10 5 rfl (by decide) (by decide)).1,
    (repay_full_marks_repaid_releases cActive cRepaidFull 1 1000 10 5 rfl (by decide) (by decide)).2⟩

/-- Helper: under the liquidation preconditions, liquidate_loan reduces to
the expiry comparison alone. -/
theorem liquidate_loan_eval (s : ContractState) (id caller b tok now : Nat)
    (hp : s.paused = false) (hb : s.borrower = some b) (hs : s.status = some 0)
    (hc : s.collat = some tok) (hown : owner_of s tok = some b) :
    liquidate_loan s id caller now
      = if now < s.created.getD 0 + s.duration.getD 0 * 86400
        then .error .LoanNotExpired
        else .ok (liquidated s tok caller) := by
  unfold liquidate_loan
  rw [hp, hb, hs, hc]
  simp [hown, liquidated, hp, hb, hs, hc]

/-- C5: on an Active loan with positive duration whose borrower still owns
the collateral, liquidate_loan at created_at + duration_days * 86400 - 1
fails with LoanNotExpired, and at created_at + duration_days * 86400 it
succeeds, setting status Liquidated and making the caller the owner of the
collateral token. -/
theorem liquidate_loan_expiry_boundary (s : ContractState) (id caller b tok : Nat)
    (hp : s.paused = false) (hb : s.borrower = some b) (hs : s.status = some 0)
    (hc : s.collat = some tok) (hown : owner_of s tok = some b)
    (hd : 0 < s.duration.getD 0) :
    liquidate_loan s id caller (s.created.getD 0 + s.duration.getD 0 * 86400 - 1)
      = .error .LoanNotExpired ∧
    liquidate_loan s id caller (s.created.getD 0 + s.duration.getD 0 * 86400)
      = .ok (liquidated s tok caller) ∧
    owner_of (liquidated s tok caller) tok = some caller := by
  refine ⟨?_, ?_, ?_⟩
  · rw [liquidate_loan_eval s id caller b tok _ hp hb hs hc hown]
    rw [if_pos (by omega)]
  · rw [liquidate_loan_eval s id caller b tok _ hp hb hs hc hown]
    rw [if_neg (by omega)]
  · show (((tok, caller) :: s.nftOwner).find? fun p => p.1 == tok).map Prod.snd
        = some caller
    rw [List.find?_cons_of_pos _ (by simp)]
    rfl

/-- C5 witness: the boundary behaviour on the concrete Active loan cActive
(created at 100, 30 days): liquidation by account 7 fails one second
before 100 + 30 * 86400 and succeeds exactly at it. -/
theorem liquidate_loan_expiry_boundary_witness :
    cActive.paused = false ∧ cActive.borrower = some 10 ∧
    cActive.status = some 0 ∧ cActive.collat = some 5 ∧
    owner_of cActive 5 = some 10 ∧ 0 < cActive.duration.getD 0 ∧
    (liquidate_loan cActive 1 7 (cActive.created.getD 0 + cActive.duration.getD 0 * 86400 - 1)
        = .error .LoanNotExpired ∧
      liquidate_loan cActive 1 7 (cActive.created.getD 0 + cActive.duration.getD 0 * 86400)
        = .ok (liquidated cActive 5 7) ∧
      owner_of (liquidated cActive 5 7) 5 = some 7) :=
  ⟨rfl, rfl, rfl, rfl, rfl, by decide,
    liquidate_loan_expiry_boundary cActive 1 7 10 5 rfl rfl rfl rfl rfl (by decide)⟩

/-- C6 counterexample: create_loan with principal 0 and duration_days 0
succeeds (returning loan id 1 and writing a full loan record) instead of
failing with InvalidLoanTerms; the storage is mutated. -/
theorem create_loan_accepts_invalid_terms :
    create_loan stMint1 10 1 0 500 0 10 50
      = .ok (1, loanWritten stMint1 10 1 0 500 0 50) ∧
    (loanWritten stMint1 10 1 0 500 0 50).status = some 0 ∧
    (loanWritten stMint1 10 1 0 500 0 50).amount = some 0 ∧
    (loanWritten stMint1 10 1 0 500 0 50).duration = some 0 ∧
    loanWritten stMint1 10 1 0 500 0 50 ≠ stMint1 :=
  ⟨rfl, rfl, rfl, rfl, by decide⟩

/-- C6 amended: create_loan validates only NFT ownership and the
collateral slot; for any principal (including 0 and negatives) and any
duration (including 0) it succeeds and writes the loan record. -/
theorem create_loan_no_terms_validation (s : ContractState) (b tok : Nat)
    (amt : Int) (r d caller now : Nat)
    (hown : owner_of s tok = some b) (hlock : is_collateral s tok = false) :
    create_loan s b tok amt r d caller now
      = .ok (get_next_loan_id s, loanWritten s b tok amt r d now) := by
  unfold create_loan
  rw [hown]
  simp [hlock, loanWritten]

/-- C6 amended witness: instantiated with principal -5 and duration 0 on
the concrete minted state. -/
theorem create_loan_no_terms_validation_witness :
    owner_of stMint1 1 = some 10 ∧ is_collateral stMint1 1 = false ∧
    create_loan stMint1 10 1 (-5) 500 0 77 50
      = .ok (get_next_loan_id stMint1, loanWritten stMint1 10 1 (-5) 500 0 50) :=
  ⟨rfl, rfl, create_loan_no_terms_validation stMint1 10 1 (-5) 500 0 77 50 rfl rfl⟩

/-- C7 counterexample: after the admin pauses the contract, create_loan
still succeeds (while mint on the same state is blocked by the pause
gate), so create_loan does not fail with ContractPaused. -/
theorem create_loan_succeeds_while_paused :
    pause stMint1 0 = .ok pPaused ∧ pPaused.paused = true ∧
    mint pPaused 10 3 0 = .error .ContractPaused ∧
    create_loan pPaused 10 1 1000 500 30 10 50
      = .ok (1, loanWritten pPaused 10 1 1000 500 30 50) :=
  ⟨rfl, rfl, rfl, rfl⟩

/-- C7 amended: create_loan never consults the pause flag: its result on a
paused state is exactly its result on the unpaused state, with the pause
flag carried through unchanged. -/
theorem create_loan_ignores_pause (s : ContractState) (b tok : Nat) (amt : Int)
    (r d caller now : Nat) :
    create_loan { s with paused := true } b tok amt r d caller now
      = Except.map (fun p => (p.1, { p.2 with paused := true }))
          (create_loan { s with paused := false } b tok amt r d caller now) := by
  unfold create_loan
  have h1 : owner_of { s with paused := true } tok = owner_of s tok := rfl
  have h2 : owner_of { s with paused := false } tok = owner_of s tok := rfl
  rw [h1, h2]
  cases owner_of s tok with
  | none => rfl
  | some o =>
    by_cases hob : o = b
    · subst hob
      by_cases hic : is_collateral s tok = true
      · have e1 : is_collateral { s with paused := true } tok = true := hic
        have e2 : is_collateral { s with paused := false } tok = true := hic
        simp [e1, e2, Except.map]
      · have hf : is_collateral s tok = false := Bool.eq_false_iff.mpr hic
        have e1 : is_collateral { s with paused := true } tok = false := hf
        have e2 : is_collateral { s with paused := false } tok = false := hf
        simp [e1, e2, Except.map, get_next_loan_id]
    · simp [hob, Except.map]

/-- C8 counterexample: the single stored record slot is reused by
create_loan.  After loan 1 is fully repaid (status Repaid, visible under
get_loan_info 1), a new loan on another token rewrites the slot: the
stored status goes back to 0 (Active) and get_loan_info 1 now reports an
Active loan, so a terminal status is observably reverted. -/
theorem stored_status_reverts_after_new_loan :
    mint (initState 0) 10 1 0 = .ok stMint1 ∧
    mint stMint1 10 2 0 = .ok stMint2 ∧
    create_loan stMint2 10 1 1000 500 30 10 100 = .ok (1, stLoan1) ∧
    repay_loan stLoan1 1 1000 10 = .ok tRepaid ∧
    get_loan_info tRepaid 1 = .ok (10, 1000, 500, 30, 100, 1, 1000) ∧
    create_loan tRepaid 10 2 2000 600 60 10 200 = .ok (2, tLoan2) ∧
    tRepaid.status = some 1 ∧ tLoan2.status = some 0 ∧
    get_loan_info tLoan2 1 = .ok (10, 2000, 600, 60, 200, 0, 0) :=
  ⟨rfl, rfl, rfl, rfl, rfl, rfl, rfl, rfl, rfl⟩

/-- C8 amended: repay_loan called by the borrower on a loan whose status
is not Active fails with LoanNotActive; the panic aborts the transaction,
so no storage field changes.  (create_loan, however, reuses the single
record slot and resets the stored status to Active for the new loan.) -/
theorem repay_loan_terminal_rejected (s : ContractState) (id : Nat) (amt : Int)
    (b : Nat) (hb : s.borrower = some b) (hs : s.status.getD 1 ≠ 0) :
    repay_loan s id amt b = .error .LoanNotActive := by
  unfold repay_loan
  rw [hb]
  simp [hs]

/-- C8 amended witness: a further repayment on the fully repaid loan
cRepaidFull is rejected with LoanNotActive. -/
theorem repay_loan_terminal_rejected_witness :
    cRepaidFull.borrower = some 10 ∧ cRepaidFull.status.getD 1 ≠ 0 ∧
    repay_loan cRepaidFull 1 5 10 = .error .LoanNotActive :=
  ⟨rfl, by decide, repay_loan_terminal_rejected cRepaidFull 1 5 10 rfl (by decide)⟩

end Lending
